import Mathlib

/-!
Shallow embedding of `scripts/simple-client.py` (far-control-frontend).

Conventions of the embedding:
* Python `int` values become `ℤ` (Python `%` on a positive modulus is `Int.emod`,
  which is Lean's `%` on `ℤ`).
* Python `float` results of exact integer divisions are modelled as `ℚ`.
* Python exceptions become an explicit error type `PyError`; a method that can
  raise is modelled as `state → args → state × Except PyError result`, where the
  returned state reflects exactly the mutations performed before the raise.
* `struct.unpack` float fields (`f`) are carried as their raw 32-bit integer
  value: no claim performs arithmetic on them, only equality of latched data.
* The outbound ZeroMQ publish is modelled as the optional `Msg` output of a
  feed call; logging calls are modelled only through the exceptions their
  argument expressions can raise (`IgnitionState(values[3])` etc.).
-/

/-- Python runtime exceptions that the modelled code can raise. -/
inductive PyError where
  /-- Python `ZeroDivisionError`, raised by `/` with zero divisor. -/
  | zeroDivision
  /-- Python `TypeError`, raised by arithmetic on `None`. -/
  | typeError
  /-- Python `ValueError`, raised by `Enum(value)` on an unknown value and by
  unpacking a too-short sequence into `seq, packet_type = data[:2]`. -/
  | valueError
  /-- Python `struct.error`, raised by `struct.unpack` on a buffer of the wrong size. -/
  | structError
deriving DecidableEq, Repr

/-- Equality of `Except` results is decidable componentwise (used to evaluate
the model on concrete inputs). -/
instance {e a : Type _} [DecidableEq e] [DecidableEq a] : DecidableEq (Except e a)
  | .error e1, .error e2 =>
    if h : e1 = e2 then .isTrue (congrArg Except.error h)
    else .isFalse fun hh => h (Except.error.inj hh)
  | .error _, .ok _ => .isFalse fun hh => Except.noConfusion hh
  | .ok _, .error _ => .isFalse fun hh => Except.noConfusion hh
  | .ok v1, .ok v2 =>
    if h : v1 = v2 then .isTrue (congrArg Except.ok h)
    else .isFalse fun hh => h (Except.ok.inj hh)

/-- Model of `class PacketType(enum.Enum)` of `simple-client.py`. -/
inductive PacketType where
  | STATE_PACKET
  | IMU_SET_A_PACKET
  | IMU_SET_B_PACKET
deriving DecidableEq, Repr

/-- Model of `PacketType(v)`: `some` the member with that value, `none` when the Python
call would raise `ValueError`. -/
def PacketType.ofInt : ℤ → Option PacketType
  | 0 => some .STATE_PACKET
  | 1 => some .IMU_SET_A_PACKET
  | 2 => some .IMU_SET_B_PACKET
  | _ => none

/-- Model of `class IgnitionState(enum.Enum)` of `simple-client.py`. -/
inductive IgnitionState where
  | RESET
  | SECRET_A
  | PYROS_UNLOCKED
  | SECRET_AB
  | IGNITION
  | RADIO_SILENCE
deriving DecidableEq, Repr

/-- Model of `IgnitionState(v)`: `some` member, or `none` when Python raises `ValueError`. -/
def IgnitionState.ofInt : ℤ → Option IgnitionState
  | 0 => some .RESET
  | 1 => some .SECRET_A
  | 2 => some .PYROS_UNLOCKED
  | 3 => some .SECRET_AB
  | 4 => some .IGNITION
  | 5 => some .RADIO_SILENCE
  | _ => none

/-- Model of `class ControlState(enum.Enum)` of `simple-client.py`. -/
inductive ControlState where
  | CSM_LAUNCHPAD
  | CSM_IGNITION
  | CSM_LIFTOFF
  | CSM_ACCELERATION
  | CSM_DECELERATION
  | CSM_COASTNG
  | CSM_APOGEE
  | CSM_DEPLOY_MAIN
deriving DecidableEq, Repr

/-- Model of `ControlState(v)`: `some` member, or `none` when Python raises `ValueError`. -/
def ControlState.ofInt : ℤ → Option ControlState
  | 0 => some .CSM_LAUNCHPAD
  | 1 => some .CSM_IGNITION
  | 2 => some .CSM_LIFTOFF
  | 3 => some .CSM_ACCELERATION
  | 4 => some .CSM_DECELERATION
  | 5 => some .CSM_COASTNG
  | 6 => some .CSM_APOGEE
  | 7 => some .CSM_DEPLOY_MAIN
  | _ => none

/-- Model of `ina226_voltage(v) = v * 0.00125`, over exact rationals. -/
def ina226_voltage (v : ℤ) : ℚ := (v : ℚ) * (125 / 100000)

/-- Model of `ina3221_voltage(v) = v / 8 * 0.008`, over exact rationals. -/
def ina3221_voltage (v : ℤ) : ℚ := (v : ℚ) / 8 * (8 / 1000)

/-- The sequence-number delta `(seq + 2**8 - self._last_seq) % 2**8` from
`ClockTracker.feed` (line 89). -/
def seq_diff (seq last_seq : ℤ) : ℤ := (seq + 2 ^ 8 - last_seq) % 2 ^ 8

/-- The tick delta `(timestamp + 2**32 - self._last_timestamp) % 2**32` from
`ClockTracker.feed` (line 90). -/
def tick_diff (timestamp last_timestamp : ℤ) : ℤ :=
  (timestamp + 2 ^ 32 - last_timestamp) % 2 ^ 32

/-- The mutable state of a `ClockTracker` instance.  `mcu_time` is seeded from
`time.monotonic()` at construction; `last_host` is written but never read by
the computation. -/
structure ClockTracker where
  clockfreq : ℤ
  last_timestamp : Option ℤ
  last_host : Option ℚ
  last_seq : Option ℤ
  mcu_time : ℚ
deriving DecidableEq, Repr

/-- Model of `ClockTracker.__init__`: the seed is the value `time.monotonic()` returned
at construction time. -/
def ClockTracker.init (clockfreq : ℤ) (seed : ℚ) : ClockTracker :=
  { clockfreq := clockfreq, last_timestamp := none, last_host := none,
    last_seq := none, mcu_time := seed }

/-- Model of `ClockTracker.feed(self, now, timestamp, seq)`.  Returns the state as left
by the call (unchanged when an exception is raised: the raise at line 90
happens before any assignment) together with the returned mission time or the
raised exception. -/
def ClockTracker.feed (st : ClockTracker) (now : ℚ) (timestamp seq : ℤ) :
    ClockTracker × Except PyError ℚ :=
  match st.last_timestamp with
  | some lt =>
    match st.last_seq with
    | some ls =>
      let sd := seq_diff seq ls
      if sd = 0 then (st, .error .zeroDivision)
      else if st.clockfreq = 0 then (st, .error .zeroDivision)
      else
        let diff : ℚ := (tick_diff timestamp lt : ℚ) / (sd : ℚ) / (st.clockfreq : ℚ)
        let st1 : ClockTracker :=
          { st with mcu_time := st.mcu_time + diff, last_timestamp := some timestamp,
                    last_host := some now, last_seq := some seq }
        (st1, .ok st1.mcu_time)
    | none => (st, .error .typeError)
  | none =>
    let st1 : ClockTracker :=
      { st with last_timestamp := some timestamp, last_host := some now,
                last_seq := some seq }
    (st1, .ok st1.mcu_time)

/-- A sequence of `feed` calls on one tracker instance: threads the state,
stops at the first raised exception (which propagates in the script). -/
def ClockTracker.feedAll (st : ClockTracker) :
    List (ℚ × ℤ × ℤ) → ClockTracker × Except PyError (List ℚ)
  | [] => (st, .ok [])
  | (now, timestamp, seq) :: rest =>
    match st.feed now timestamp seq with
    | (st1, .error e) => (st1, .error e)
    | (st1, .ok t) =>
      match st1.feedAll rest with
      | (st2, .error e) => (st2, .error e)
      | (st2, .ok ts) => (st2, .ok (t :: ts))

/-- The list of values returned by a run, forgetting the final state. -/
def ClockTracker.outputs (r : ClockTracker × Except PyError (List ℚ)) :
    Except PyError (List ℚ) := r.2

/-- Value of `struct.calcsize("<BBIBBhhhh")`. -/
def RQ_STATE_SIZE : ℕ := 16

/-- Value of `struct.calcsize("<BBIhhhhhhhhhff")`. -/
def RQ_SIZE : ℕ := 32

/-- Little-endian `B` (u8) read at byte offset `i` of a payload. -/
def readU8 (l : List ℕ) (i : ℕ) : ℤ := (l.getD i 0 : ℤ)

/-- Little-endian `I` (u32) read at byte offset `i` of a payload. -/
def readU32 (l : List ℕ) (i : ℕ) : ℤ :=
  readU8 l i + 2 ^ 8 * readU8 l (i + 1) + 2 ^ 16 * readU8 l (i + 2) +
    2 ^ 24 * readU8 l (i + 3)

/-- Little-endian `h` (signed i16) read at byte offset `i` of a payload. -/
def readI16 (l : List ℕ) (i : ℕ) : ℤ :=
  let v := readU8 l i + 2 ^ 8 * readU8 l (i + 1)
  if v < 2 ^ 15 then v else v - 2 ^ 16

/-- The tuple produced by `struct.unpack(RQ_STATE_FORMAT, ...)`:
`(seq, type, timestamp, ignition, control, 4 raw voltage-sense i16)`.
Enum fields are the raw integers: `unpack` performs no enum interpretation. -/
structure StateValues where
  seq : ℤ
  ptype : ℤ
  timestamp : ℤ
  ignition : ℤ
  control : ℤ
  v0 : ℤ
  v1 : ℤ
  v2 : ℤ
  v3 : ℤ
deriving DecidableEq, Repr

/-- Model of `struct.unpack(RQ_STATE_FORMAT, buf)`: raises `struct.error` unless the
buffer is exactly `RQ_STATE_SIZE` bytes. -/
def unpackState (l : List ℕ) : Except PyError StateValues :=
  if l.length = RQ_STATE_SIZE then
    .ok { seq := readU8 l 0, ptype := readU8 l 1, timestamp := readU32 l 2,
          ignition := readU8 l 6, control := readU8 l 7,
          v0 := readI16 l 8, v1 := readI16 l 10, v2 := readI16 l 12,
          v3 := readI16 l 14 }
  else .error .structError

/-- The tuple produced by `struct.unpack(RQ_FORMAT, ...)`: `(seq, type,
timestamp, 9 i16 sensor values, pressure, temperature)`.  The two `f` fields
are carried as their raw 32-bit pattern. -/
structure ImuValues where
  seq : ℤ
  ptype : ℤ
  timestamp : ℤ
  acc_x : ℤ
  acc_y : ℤ
  acc_z : ℤ
  gyr_x : ℤ
  gyr_y : ℤ
  gyr_z : ℤ
  mag_x : ℤ
  mag_y : ℤ
  mag_z : ℤ
  pressure : ℤ
  temperature : ℤ
deriving DecidableEq, Repr

/-- Model of `struct.unpack(RQ_FORMAT, buf)`: raises `struct.error` unless the buffer is
exactly `RQ_SIZE` bytes. -/
def unpackImu (l : List ℕ) : Except PyError ImuValues :=
  if l.length = RQ_SIZE then
    .ok { seq := readU8 l 0, ptype := readU8 l 1, timestamp := readU32 l 2,
          acc_x := readI16 l 6, acc_y := readI16 l 8, acc_z := readI16 l 10,
          gyr_x := readI16 l 12, gyr_y := readI16 l 14, gyr_z := readI16 l 16,
          mag_x := readI16 l 18, mag_y := readI16 l 20, mag_z := readI16 l 22,
          pressure := readU32 l 24, temperature := readU32 l 28 }
  else .error .structError

/-- The `data` dict built in `_feed_imu_messages` and latched into `self._a`
or `self._b`. -/
structure ImuData where
  acc_x : ℤ
  acc_y : ℤ
  acc_z : ℤ
  gyr_x : ℤ
  gyr_y : ℤ
  gyr_z : ℤ
  mag_x : ℤ
  mag_y : ℤ
  mag_z : ℤ
  temperature : ℤ
  pressure : ℤ
deriving DecidableEq, Repr

/-- The `data` dict of a set of unpacked IMU values. -/
def ImuValues.data (v : ImuValues) : ImuData :=
  { acc_x := v.acc_x, acc_y := v.acc_y, acc_z := v.acc_z,
    gyr_x := v.gyr_x, gyr_y := v.gyr_y, gyr_z := v.gyr_z,
    mag_x := v.mag_x, mag_y := v.mag_y, mag_z := v.mag_z,
    temperature := v.temperature, pressure := v.pressure }

/-- The aggregated message `json.dumps(dict(timestamp=..., raw_timestamp=...,
a=..., b=...))` handed to `self._socket.send_string`. -/
structure Msg where
  timestamp : ℚ
  raw_timestamp : ℤ
  a : ImuData
  b : ImuData
deriving DecidableEq, Repr

/-- The mutable state of a `MessageBuilder`: the configured target node, the
owned `ClockTracker`, and the two aggregation latches `_a` and `_b`. -/
structure MessageBuilder where
  node : String
  clock_tracker : ClockTracker
  a : Option ImuData
  b : Option ImuData
deriving DecidableEq, Repr

/-- Model of `MessageBuilder.__init__`: both latches start empty; the tracker is
constructed with the default 200 MHz clock and the monotonic-time seed. -/
def MessageBuilder.init (node : String) (seed : ℚ) : MessageBuilder :=
  { node := node, clock_tracker := ClockTracker.init 200000000 seed,
    a := none, b := none }

/-- Model of `MessageBuilder._feed_imu_messages` (lines 135-154): always feeds the
clock tracker first; only when the packet's node equals the configured node
does it latch the data and, if both latches are non-empty, emit a message.
The returned state reflects the mutations performed before any raise. -/
def MessageBuilder.feed_imu_messages (st : MessageBuilder) (now : ℚ)
    (node : String) (seq packet_type timestamp : ℤ) (data : ImuData) :
    MessageBuilder × Except PyError (Option Msg) :=
  match st.clock_tracker.feed now timestamp seq with
  | (ck, .error e) => ({ st with clock_tracker := ck }, .error e)
  | (ck, .ok mcu_timestamp) =>
    let st := { st with clock_tracker := ck }
    if node = st.node then
      match PacketType.ofInt packet_type with
      | none => (st, .error .valueError)
      | some pt =>
        let st :=
          match pt with
          | .IMU_SET_A_PACKET => { st with a := some data }
          | .IMU_SET_B_PACKET => { st with b := some data }
          | .STATE_PACKET => st
        match st.a, st.b with
        | some da, some db =>
          (st, .ok (some { timestamp := mcu_timestamp,
                           raw_timestamp := timestamp, a := da, b := db }))
        | _, _ => (st, .ok none)
    else (st, .ok none)

/-- Model of `MessageBuilder.feed` (lines 110-133).  `seq, packet_type = data[:2]`
raises `ValueError` on a payload shorter than 2 bytes; `PacketType(...)`
raises `ValueError` on an unknown type byte; the STATE branch evaluates
`IgnitionState(values[3])` and `ControlState(values[4])`, each raising
`ValueError` on out-of-range values; the IMU branches unpack and delegate to
`_feed_imu_messages`. -/
def MessageBuilder.feed (st : MessageBuilder) (now : ℚ) (node : String)
    (data : List ℕ) : MessageBuilder × Except PyError (Option Msg) :=
  match data with
  | _ :: b1 :: _ =>
    match PacketType.ofInt (b1 : ℤ) with
    | none => (st, .error .valueError)
    | some .STATE_PACKET =>
      match unpackState (data.take RQ_STATE_SIZE) with
      | .error e => (st, .error e)
      | .ok v =>
        match IgnitionState.ofInt v.ignition with
        | none => (st, .error .valueError)
        | some _ =>
          match ControlState.ofInt v.control with
          | none => (st, .error .valueError)
          | some _ => (st, .ok none)
    | some .IMU_SET_A_PACKET =>
      match unpackImu (data.take RQ_SIZE) with
      | .error e => (st, .error e)
      | .ok v => st.feed_imu_messages now node v.seq v.ptype v.timestamp v.data
    | some .IMU_SET_B_PACKET =>
      match unpackImu (data.take RQ_SIZE) with
      | .error e => (st, .error e)
      | .ok v => st.feed_imu_messages now node v.seq v.ptype v.timestamp v.data
  | _ => (st, .error .valueError)

/-- A sequence of `_feed_imu_messages` calls on one builder, threading the
state; an exception aborts the run (it propagates out of `builder.feed` in
the script). -/
def MessageBuilder.feedImuAll (st : MessageBuilder) :
    List (ℚ × String × ℤ × ℤ × ℤ × ImuData) →
      MessageBuilder × Except PyError (List (Option Msg))
  | [] => (st, .ok [])
  | (now, node, seq, pt, ts, d) :: rest =>
    match st.feed_imu_messages now node seq pt ts d with
    | (st1, .error e) => (st1, .error e)
    | (st1, .ok out) =>
      match st1.feedImuAll rest with
      | (st2, .error e) => (st2, .error e)
      | (st2, .ok outs) => (st2, .ok (out :: outs))

/-- Which calls of a `_feed_imu_messages` run emitted a message: `none` when
the run raised. -/
def emissions (r : MessageBuilder × Except PyError (List (Option Msg))) :
    Option (List Bool) :=
  match r.2 with
  | .ok outs => some (outs.map Option.isSome)
  | .error _ => none

/-- The bridge loop of `main` (lines 181-193) over already-JSON-parsed
envelopes `(receive time, node, payload bytes)`: `builder.feed` is called in
the `else:` clause of the `try`, so any exception it raises is NOT caught by
the `except ValueError` handler (which guards only `json.loads`) and
terminates the loop; remaining envelopes are never processed. -/
def runLoop (st : MessageBuilder) :
    List (ℚ × String × List ℕ) → MessageBuilder × Except PyError (List Msg)
  | [] => (st, .ok [])
  | (now, node, data) :: rest =>
    match st.feed now node data with
    | (st1, .error e) => (st1, .error e)
    | (st1, .ok out) =>
      match runLoop st1 rest with
      | (st2, .error e) => (st2, .error e)
      | (st2, .ok outs) =>
        (st2, .ok (match out with | some m => m :: outs | none => outs))


/-- The `(clockfreq, last_timestamp, last_seq, mcu_time)` fields of a tracker:
everything `feed` reads.  `last_host` is excluded: it is written, never read. -/
def ClockTracker.core (st : ClockTracker) : ℤ × Option ℤ × Option ℤ × ℚ :=
  (st.clockfreq, st.last_timestamp, st.last_seq, st.mcu_time)

/-- A tracker mid-run: 200 MHz clock, given last tick/seq and mission time. -/
def mkTracker (lt ls : ℤ) (t : ℚ) : ClockTracker :=
  { clockfreq := 200000000, last_timestamp := some lt, last_host := none,
    last_seq := some ls, mcu_time := t }

/-- An IMU `data` dict whose accelerometer x-value tags the packet. -/
def sampleData (n : ℤ) : ImuData :=
  { acc_x := n, acc_y := 0, acc_z := 0, gyr_x := 0, gyr_y := 0, gyr_z := 0,
    mag_x := 0, mag_y := 0, mag_z := 0, temperature := 0, pressure := 0 }

/-- A freshly constructed builder targeting node `"RQB"`, seeded at 0. -/
def mbFresh : MessageBuilder := MessageBuilder.init "RQB" 0

/-- A builder whose latches both hold data (a completed pairing) and whose
tracker has seen tick 100 at sequence 2 with mission time 1. -/
def mbPaired : MessageBuilder :=
  { node := "RQB", clock_tracker := mkTracker 100 2 1,
    a := some (sampleData 1), b := some (sampleData 2) }

/-- The message emitted when `mbPaired` receives a set-B packet
`(seq 3, tick 300)` carrying `sampleData 9`. -/
def msgPairedB : Msg :=
  { timestamp := 1 + 1 / 1000000, raw_timestamp := 300,
    a := sampleData 1, b := sampleData 9 }

/-- A 16-byte STATE payload whose `ignitionState` byte (offset 6) holds 9,
outside the `IgnitionState` enum range 0..5. -/
def badStatePayload : List ℕ := [0, 0, 0, 0, 0, 0, 9, 0, 0, 0, 0, 0, 0, 0, 0, 0]

/-- A well-formed 32-byte IMU set-A payload (seq 1, all sensor fields 0). -/
def goodImuPayload : List ℕ := [1, 1] ++ List.replicate 30 0

/-- A 2-byte payload whose type byte 7 matches no `PacketType` member. -/
def badTypePayload : List ℕ := [0, 7]

/-- A 16-byte STATE payload with `ignitionState = 4` (valid) but
`controlState = 9`, outside the `ControlState` enum range 0..7. -/
def badControlPayload : List ℕ := [0, 0, 0, 0, 0, 0, 4, 9, 0, 0, 0, 0, 0, 0, 0, 0]

/-- C1, counterexample: on a tracker whose stored `lastSeq` is 7, feeding
`deviceSeq = 7` does NOT fail with an `InvalidSequence` error — the script
defines no such error; the call propagates the `ZeroDivisionError` of the
division `... / seq_diff` at line 90. -/
theorem feed_equal_seq_propagates_zero_division_concrete :
    (mkTracker 1000 7 5).feed 0 2000 7 =
      (mkTracker 1000 7 5, Except.error PyError.zeroDivision) := by rfl

/-- C1, amended: feeding a `deviceSeq` whose modular delta to `lastSeq` is 0
fails by propagating the divide-by-zero (`ZeroDivisionError`), and leaves the
stored tracker state (`lastTick`, `lastSeq`, `estimatedMissionTime`)
unmodified: the raise happens before any assignment. -/
theorem feed_equal_seq_zero_division_state_unchanged (st : ClockTracker)
    (now : ℚ) (ts seq lt ls : ℤ) (hlt : st.last_timestamp = some lt)
    (hls : st.last_seq = some ls) (hsd : seq_diff seq ls = 0) :
    st.feed now ts seq = (st, Except.error PyError.zeroDivision) := by
  unfold ClockTracker.feed
  rw [hlt, hls]
  simp [hsd]

/-- C1, witness: the amended theorem at a concrete tracker and input. -/
theorem feed_equal_seq_zero_division_state_unchanged_witness :
    (mkTracker 1000 42 5).last_timestamp = some 1000 ∧
    (mkTracker 1000 42 5).last_seq = some 42 ∧ seq_diff 42 42 = 0 ∧
    (mkTracker 1000 42 5).feed 3 2500 42 =
      (mkTracker 1000 42 5, Except.error PyError.zeroDivision) :=
  ⟨rfl, rfl, by decide,
    feed_equal_seq_zero_division_state_unchanged (mkTracker 1000 42 5) 3 2500 42
      1000 42 rfl rfl (by decide)⟩

/-- C6: with `clockFrequencyHz = 200000000`, `lastTick = 4294967290` and
`lastSeq = 254`, feeding `deviceTick = 5`, `deviceSeq = 1` computes
`tickDelta = 11` and `seqDelta = 3` through the modular differences and
advances the mission-time estimate by exactly `11 / 3 / 200000000`. -/
theorem feed_wraparound_advances_by_eleven_thirds (t now : ℚ) :
    seq_diff 1 254 = 3 ∧ tick_diff 5 4294967290 = 11 ∧
    (mkTracker 4294967290 254 t).feed now 5 1 =
      ({ clockfreq := 200000000, last_timestamp := some 5, last_host := some now,
         last_seq := some 1, mcu_time := t + 11 / 3 / 200000000 },
       Except.ok (t + 11 / 3 / 200000000)) := by
  refine ⟨by decide, by decide, ?_⟩
  simp [ClockTracker.feed, mkTracker, seq_diff, tick_diff]

/-- A successful `feed` call never returns less than the stored mission time,
returns exactly the new stored mission time, and keeps the clock frequency. -/
theorem feed_ok_bounds (st st' : ClockTracker) (now t : ℚ) (ts seq : ℤ)
    (hcf : 0 < st.clockfreq) (h : st.feed now ts seq = (st', Except.ok t)) :
    st.mcu_time ≤ t ∧ st'.mcu_time = t ∧ st'.clockfreq = st.clockfreq := by
  unfold ClockTracker.feed at h
  cases hlt : st.last_timestamp with
  | none =>
    rw [hlt] at h
    simp only [Prod.mk.injEq, Except.ok.injEq] at h
    obtain ⟨rfl, rfl⟩ := h
    exact ⟨le_refl _, rfl, rfl⟩
  | some lt =>
    rw [hlt] at h
    cases hls : st.last_seq with
    | none => rw [hls] at h; simp at h
    | some ls =>
      rw [hls] at h
      by_cases hsd : seq_diff seq ls = 0
      · simp [hsd] at h
      · by_cases hc0 : st.clockfreq = 0
        · simp [hsd, hc0] at h
        · simp only [hsd, hc0, if_neg, if_false, Prod.mk.injEq, Except.ok.injEq,
            ite_false] at h
          obtain ⟨rfl, rfl⟩ := h
          refine ⟨?_, rfl, rfl⟩
          have h0 : (0 : ℤ) ≤ tick_diff ts lt := Int.emod_nonneg _ (by norm_num)
          have h1 : (0 : ℤ) < seq_diff seq ls :=
            lt_of_le_of_ne (Int.emod_nonneg _ (by norm_num)) (Ne.symm hsd)
          have hd : (0 : ℚ) ≤ (tick_diff ts lt : ℚ) / (seq_diff seq ls : ℚ) /
              (st.clockfreq : ℚ) := by
            apply div_nonneg (div_nonneg ?_ ?_) ?_
            · exact_mod_cast h0
            · exact_mod_cast h1.le
            · exact_mod_cast hcf.le
          show st.mcu_time ≤ st.mcu_time +
            (tick_diff ts lt : ℚ) / (seq_diff seq ls : ℚ) / (st.clockfreq : ℚ)
          exact le_add_of_nonneg_right hd

/-- Over a whole error-free run, the stored mission time followed by the
returned values forms a non-decreasing chain. -/
theorem feedAll_chain (l : List (ℚ × ℤ × ℤ)) :
    ∀ (st st' : ClockTracker) (outs : List ℚ), 0 < st.clockfreq →
      st.feedAll l = (st', Except.ok outs) →
      List.Chain' (· ≤ ·) (st.mcu_time :: outs) := by
  induction l with
  | nil =>
    intro st st' outs hcf h
    unfold ClockTracker.feedAll at h
    simp only [Prod.mk.injEq, Except.ok.injEq] at h
    obtain ⟨rfl, rfl⟩ := h
    simp
  | cons c rest ih =>
    intro st st' outs hcf h
    obtain ⟨now, ts, seq⟩ := c
    unfold ClockTracker.feedAll at h
    rcases hf : st.feed now ts seq with ⟨st1, r1⟩
    rw [hf] at h
    cases r1 with
    | error e => simp at h
    | ok t =>
      dsimp only at h
      rcases hrest : st1.feedAll rest with ⟨st2, r2⟩
      rw [hrest] at h
      cases r2 with
      | error e => simp at h
      | ok ts' =>
        simp only [Prod.mk.injEq, Except.ok.injEq] at h
        obtain ⟨rfl, rfl⟩ := h
        obtain ⟨hle, hmcu, hcfeq⟩ := feed_ok_bounds st st1 now t ts seq hcf hf
        have hchain := ih st1 st2 ts' (hcfeq ▸ hcf) hrest
        rw [hmcu] at hchain
        exact List.chain'_cons.mpr ⟨hle, hchain⟩

/-- C2: over any sequence of `feed` calls on one tracker in which every call
succeeds (in particular every call after the first has a non-zero modular
sequence delta), the returned values never decrease. -/
theorem feed_outputs_monotone (st st' : ClockTracker) (l : List (ℚ × ℤ × ℤ))
    (outs : List ℚ) (hcf : 0 < st.clockfreq)
    (h : st.feedAll l = (st', Except.ok outs)) :
    List.Chain' (· ≤ ·) outs :=
  (feedAll_chain l st st' outs hcf h).tail

/-- C2, witness: a concrete three-call run of the 200 MHz tracker. -/
theorem feed_outputs_monotone_witness :
    List.Chain' (· ≤ ·) [(0 : ℚ), 1 / 2000000, 7 / 12000000] :=
  feed_outputs_monotone (ClockTracker.init 200000000 0)
    ((ClockTracker.init 200000000 0).feedAll [(0, 100, 1), (0, 200, 2), (0, 250, 5)]).1
    [(0, 100, 1), (0, 200, 2), (0, 250, 5)] [0, 1 / 2000000, 7 / 12000000]
    (by decide)
    (by norm_num [ClockTracker.feedAll, ClockTracker.feed, ClockTracker.init,
      seq_diff, tick_diff])

/-- Since `feed` reads only the `core` fields, two trackers agreeing on `core` fed
the same `(timestamp, seq)` — with arbitrary different `now` arguments —
produce equal results and keep agreeing on `core`. -/
theorem feed_core_congr (st1 st2 : ClockTracker) (now1 now2 : ℚ) (ts seq : ℤ)
    (h : st1.core = st2.core) :
    (st1.feed now1 ts seq).1.core = (st2.feed now2 ts seq).1.core ∧
    (st1.feed now1 ts seq).2 = (st2.feed now2 ts seq).2 := by
  obtain ⟨cf, lt, lh1, ls, mt⟩ := st1
  obtain ⟨cf2, lt2, lh2, ls2, mt2⟩ := st2
  simp only [ClockTracker.core, Prod.mk.injEq] at h
  obtain ⟨rfl, rfl, rfl, rfl⟩ := h
  unfold ClockTracker.feed
  cases lt with
  | none => simp [ClockTracker.core]
  | some l =>
    cases ls with
    | none => simp [ClockTracker.core]
    | some s =>
      by_cases hsd : seq_diff seq s = 0
      · simp [hsd, ClockTracker.core]
      · by_cases hc0 : cf = 0
        · simp [hsd, hc0, ClockTracker.core]
        · simp [hsd, hc0, ClockTracker.core]

/-- Whole-run version of `feed_core_congr`: same `(timestamp, seq)` streams,
arbitrary host times. -/
theorem feedAll_core_congr (l1 : List (ℚ × ℤ × ℤ)) :
    ∀ (l2 : List (ℚ × ℤ × ℤ)) (st1 st2 : ClockTracker), st1.core = st2.core →
      l1.map Prod.snd = l2.map Prod.snd →
      (st1.feedAll l1).1.core = (st2.feedAll l2).1.core ∧
      (st1.feedAll l1).2 = (st2.feedAll l2).2 := by
  induction l1 with
  | nil =>
    intro l2 st1 st2 hc hm
    cases l2 with
    | nil => exact ⟨hc, rfl⟩
    | cons c2 rest2 => simp at hm
  | cons c rest ih =>
    intro l2 st1 st2 hc hm
    cases l2 with
    | nil => simp at hm
    | cons c2 rest2 =>
      obtain ⟨now1, p⟩ := c
      obtain ⟨now2, p2⟩ := c2
      simp only [List.map_cons, List.cons.injEq] at hm
      obtain ⟨hp, hrest⟩ := hm
      cases hp
      obtain ⟨ts, seq⟩ := p
      have hstep := feed_core_congr st1 st2 now1 now2 ts seq hc
      unfold ClockTracker.feedAll
      rcases h1 : st1.feed now1 ts seq with ⟨s1, r1⟩
      rcases h2 : st2.feed now2 ts seq with ⟨s2, r2⟩
      rw [h1, h2] at hstep
      obtain ⟨hcore, hr⟩ := hstep
      dsimp only at hcore hr
      cases hr
      cases r1 with
      | error e => exact ⟨hcore, rfl⟩
      | ok t =>
        dsimp only
        have hrec := ih rest2 s1 s2 hcore hrest
        rcases hA : s1.feedAll rest with ⟨u1, q1⟩
        rcases hB : s2.feedAll rest2 with ⟨u2, q2⟩
        rw [hA, hB] at hrec
        obtain ⟨huc, hq⟩ := hrec
        dsimp only at huc hq
        cases hq
        cases q1 with
        | error e => exact ⟨huc, rfl⟩
        | ok ts' => exact ⟨huc, rfl⟩

/-- C10: two trackers constructed with the same frequency and seed and fed
identical `(deviceTick, deviceSeq)` streams return identical mission times no
matter how the `hostTime` arguments differ; and the first call on a fresh
tracker returns the construction seed, not the host time passed to it. -/
theorem mission_time_independent_of_host_time (cf : ℤ) (seed : ℚ)
    (l1 l2 : List (ℚ × ℤ × ℤ)) (h : l1.map Prod.snd = l2.map Prod.snd) :
    ClockTracker.outputs ((ClockTracker.init cf seed).feedAll l1) =
      ClockTracker.outputs ((ClockTracker.init cf seed).feedAll l2) ∧
    ∀ (now : ℚ) (ts seq : ℤ),
      ((ClockTracker.init cf seed).feed now ts seq).2 = Except.ok seed :=
  ⟨(feedAll_core_congr l1 l2 _ _ rfl h).2, fun _ _ _ => rfl⟩

/-- C10, witness: two concrete two-call runs differing only in host times. -/
theorem mission_time_independent_of_host_time_witness :
    ClockTracker.outputs
        ((ClockTracker.init 200000000 5).feedAll [(3, 100, 1), (7, 200, 2)]) =
      ClockTracker.outputs
        ((ClockTracker.init 200000000 5).feedAll [(50, 100, 1), (60, 200, 2)]) ∧
    ((ClockTracker.init 200000000 5).feed 99 100 1).2 = Except.ok 5 :=
  ⟨(mission_time_independent_of_host_time 200000000 5 [(3, 100, 1), (7, 200, 2)]
      [(50, 100, 1), (60, 200, 2)] rfl).1,
   (mission_time_independent_of_host_time 200000000 5 [(3, 100, 1), (7, 200, 2)]
      [(50, 100, 1), (60, 200, 2)] rfl).2 99 100 1⟩

/-- Effects of one `_feed_imu_messages` call on the latches: each latch is
either untouched or overwritten (with the call's data) by a matching-node
packet of its own set label, and an emitted message always reflects both
latches being filled. -/
theorem feed_imu_effects (st : MessageBuilder) (now : ℚ) (node : String)
    (seq pt ts : ℤ) (d : ImuData) :
    ((st.feed_imu_messages now node seq pt ts d).1.a = st.a ∨
      (node = st.node ∧ PacketType.ofInt pt = some PacketType.IMU_SET_A_PACKET ∧
        (st.feed_imu_messages now node seq pt ts d).1.a = some d)) ∧
    ((st.feed_imu_messages now node seq pt ts d).1.b = st.b ∨
      (node = st.node ∧ PacketType.ofInt pt = some PacketType.IMU_SET_B_PACKET ∧
        (st.feed_imu_messages now node seq pt ts d).1.b = some d)) ∧
    ∀ m : Msg, (st.feed_imu_messages now node seq pt ts d).2 =
        Except.ok (some m) →
      (st.feed_imu_messages now node seq pt ts d).1.a = some m.a ∧
      (st.feed_imu_messages now node seq pt ts d).1.b = some m.b := by
  unfold MessageBuilder.feed_imu_messages
  rcases hck : st.clock_tracker.feed now ts seq with ⟨ck, r⟩
  cases r with
  | error e => simp
  | ok t =>
    by_cases hn : node = st.node
    · cases hpt : PacketType.ofInt pt with
      | none => simp [hn, hpt]
      | some p =>
        cases p with
        | STATE_PACKET =>
          rcases ha : st.a with _ | da <;> rcases hb : st.b with _ | db <;>
            simp [hn, hpt, ha, hb]
        | IMU_SET_A_PACKET =>
          rcases hb : st.b with _ | db <;> simp [hn, hpt, hb]
        | IMU_SET_B_PACKET =>
          rcases ha : st.a with _ | da <;> simp [hn, hpt, ha]
    · simp [hn]

/-- One `_feed_imu_messages` call never empties a non-empty latch. -/
theorem feed_imu_latch_isSome (st : MessageBuilder) (now : ℚ) (node : String)
    (seq pt ts : ℤ) (d : ImuData) :
    (st.a.isSome = true →
      (st.feed_imu_messages now node seq pt ts d).1.a.isSome = true) ∧
    (st.b.isSome = true →
      (st.feed_imu_messages now node seq pt ts d).1.b.isSome = true) := by
  obtain ⟨hA, hB, _⟩ := feed_imu_effects st now node seq pt ts d
  constructor
  · intro h
    rcases hA with hA | ⟨_, _, hA⟩
    · rw [hA]; exact h
    · rw [hA]; rfl
  · intro h
    rcases hB with hB | ⟨_, _, hB⟩
    · rw [hB]; exact h
    · rw [hB]; rfl

/-- A whole run of `_feed_imu_messages` calls never empties a non-empty
latch, whether the run completes or stops at a raised exception. -/
theorem feedImuAll_latch_isSome
    (l : List (ℚ × String × ℤ × ℤ × ℤ × ImuData)) :
    ∀ st : MessageBuilder,
      (st.a.isSome = true → (st.feedImuAll l).1.a.isSome = true) ∧
      (st.b.isSome = true → (st.feedImuAll l).1.b.isSome = true) := by
  induction l with
  | nil => intro st; exact ⟨id, id⟩
  | cons c rest ih =>
    intro st
    obtain ⟨now, node, seq, pt, ts, d⟩ := c
    obtain ⟨hA, hB⟩ := feed_imu_latch_isSome st now node seq pt ts d
    unfold MessageBuilder.feedImuAll
    rcases hf : st.feed_imu_messages now node seq pt ts d with ⟨st1, r⟩
    rw [hf] at hA hB
    cases r with
    | error e => exact ⟨hA, hB⟩
    | ok out =>
      dsimp only
      obtain ⟨ihA, ihB⟩ := ih st1
      rcases hrest : st1.feedImuAll rest with ⟨st2, r2⟩
      rw [hrest] at ihA ihB
      cases r2 with
      | error e => exact ⟨fun h => ihA (hA h), fun h => ihB (hB h)⟩
      | ok outs => exact ⟨fun h => ihA (hA h), fun h => ihB (hB h)⟩

/-- C3: over any run of `SampleAggregator` feeds, a non-empty latch never
becomes empty again; a single call changes a latch only when a packet of
that latch's own set label arrives for the target node (and then to that
packet's data); and an emitted `AggregatedSample` reflects both latches
still being filled after the call. -/
theorem latch_once_set_never_cleared (st : MessageBuilder)
    (l : List (ℚ × String × ℤ × ℤ × ℤ × ImuData)) :
    ((st.a.isSome = true → (st.feedImuAll l).1.a.isSome = true) ∧
     (st.b.isSome = true → (st.feedImuAll l).1.b.isSome = true)) ∧
    ∀ (now : ℚ) (node : String) (seq pt ts : ℤ) (d : ImuData),
      ((st.feed_imu_messages now node seq pt ts d).1.a = st.a ∨
        (node = st.node ∧ PacketType.ofInt pt = some PacketType.IMU_SET_A_PACKET ∧
          (st.feed_imu_messages now node seq pt ts d).1.a = some d)) ∧
      ((st.feed_imu_messages now node seq pt ts d).1.b = st.b ∨
        (node = st.node ∧ PacketType.ofInt pt = some PacketType.IMU_SET_B_PACKET ∧
          (st.feed_imu_messages now node seq pt ts d).1.b = some d)) ∧
      ∀ m : Msg, (st.feed_imu_messages now node seq pt ts d).2 =
          Except.ok (some m) →
        (st.feed_imu_messages now node seq pt ts d).1.a = some m.a ∧
        (st.feed_imu_messages now node seq pt ts d).1.b = some m.b :=
  ⟨feedImuAll_latch_isSome l st,
   fun now node seq pt ts d => feed_imu_effects st now node seq pt ts d⟩

/-- C3, witness: the paired builder keeps its A latch across a set-B feed,
and the emitted message matches both latches. -/
theorem latch_once_set_never_cleared_witness :
    (mbPaired.feedImuAll [(0, "RQB", 3, 2, 300, sampleData 9)]).1.a.isSome = true ∧
    ((mbPaired.feed_imu_messages 0 "RQB" 3 2 300 (sampleData 9)).1.a =
        some msgPairedB.a ∧
      (mbPaired.feed_imu_messages 0 "RQB" 3 2 300 (sampleData 9)).1.b =
        some msgPairedB.b) :=
  ⟨(latch_once_set_never_cleared mbPaired [(0, "RQB", 3, 2, 300, sampleData 9)]).1.1
      rfl,
   ((latch_once_set_never_cleared mbPaired [(0, "RQB", 3, 2, 300, sampleData 9)]).2
      0 "RQB" 3 2 300 (sampleData 9)).2.2 msgPairedB
      (by norm_num [MessageBuilder.feed_imu_messages, mbPaired, mkTracker,
        ClockTracker.feed, seq_diff, tick_diff, PacketType.ofInt, msgPairedB,
        sampleData])⟩

/-- C7: from empty latches, feeding a target-node set-A packet then a set-B
packet emits exactly one `AggregatedSample`, on the set-B feed; feeding two
set-A packets in a row emits nothing until a set-B packet arrives. -/
theorem pairing_a_then_b_emits_once :
    emissions (mbFresh.feedImuAll
        [(0, "RQB", 1, 1, 100, sampleData 1), (0, "RQB", 2, 2, 200, sampleData 2)]) =
      some [false, true] ∧
    emissions (mbFresh.feedImuAll
        [(0, "RQB", 1, 1, 100, sampleData 1), (0, "RQB", 2, 1, 200, sampleData 2),
         (0, "RQB", 3, 2, 300, sampleData 3)]) =
      some [false, false, true] := ⟨rfl, rfl⟩

/-- C8, counterexample: after the completed pairing (calls 1 and 2), the new
set-A packet of call 3 emits IMMEDIATELY — the latches never clear, so both
are filled when the A latch is overwritten — contradicting that no emission
occurs before the next set-B packet. -/
theorem new_a_after_pairing_emits_immediately :
    emissions (mbFresh.feedImuAll
        [(0, "RQB", 1, 1, 100, sampleData 1), (0, "RQB", 2, 2, 200, sampleData 2),
         (0, "RQB", 3, 1, 300, sampleData 3)]) =
      some [false, true, true] := rfl

/-- C8, amended: after a completed pairing (both latches filled), feeding a
new target-node set-A packet immediately emits a sample pairing the new set-A
data with the stale latched set-B data, and the next set-B packet emits again
using the new set-A's latched data. -/
theorem reemission_after_pairing (st : MessageBuilder) (ad bd dA dB : ImuData)
    (nowA nowB : ℚ) (seqA tsA seqB tsB : ℤ) (tA tB : ℚ)
    (_ha : st.a = some ad) (hb : st.b = some bd)
    (hckA : (st.clock_tracker.feed nowA tsA seqA).2 = Except.ok tA)
    (hckB : ((st.feed_imu_messages nowA st.node seqA 1 tsA dA).1.clock_tracker.feed
        nowB tsB seqB).2 = Except.ok tB) :
    (st.feed_imu_messages nowA st.node seqA 1 tsA dA).2 =
      Except.ok (some { timestamp := tA, raw_timestamp := tsA, a := dA, b := bd }) ∧
    ((st.feed_imu_messages nowA st.node seqA 1 tsA dA).1.feed_imu_messages
        nowB st.node seqB 2 tsB dB).2 =
      Except.ok (some { timestamp := tB, raw_timestamp := tsB, a := dA, b := dB }) := by
  have hstep : st.feed_imu_messages nowA st.node seqA 1 tsA dA =
      ({ st with clock_tracker := (st.clock_tracker.feed nowA tsA seqA).1,
                 a := some dA },
       Except.ok (some { timestamp := tA, raw_timestamp := tsA, a := dA, b := bd })) := by
    unfold MessageBuilder.feed_imu_messages
    rcases hck : st.clock_tracker.feed nowA tsA seqA with ⟨ck, r⟩
    rw [hck] at hckA
    cases r with
    | error e => simp at hckA
    | ok t =>
      simp only [Except.ok.injEq] at hckA
      subst hckA
      simp [PacketType.ofInt, hb]
  refine ⟨by rw [hstep], ?_⟩
  rw [hstep]
  rw [hstep] at hckB
  unfold MessageBuilder.feed_imu_messages
  rcases hck2 : ClockTracker.feed
      ({ st with clock_tracker := (st.clock_tracker.feed nowA tsA seqA).1,
                 a := some dA } : MessageBuilder).clock_tracker nowB tsB seqB
    with ⟨ck2, r2⟩
  rw [hck2] at hckB
  cases r2 with
  | error e => simp at hckB
  | ok t2 =>
    simp only [Except.ok.injEq] at hckB
    subst hckB
    simp [PacketType.ofInt]

/-- C8, witness: the amended theorem at the concrete paired builder. -/
theorem reemission_after_pairing_witness :
    (mbPaired.feed_imu_messages 0 "RQB" 3 1 300 (sampleData 3)).2 =
      Except.ok (some (Msg.mk (1 + 1 / 1000000) 300 (sampleData 3) (sampleData 2))) := by
  exact (reemission_after_pairing mbPaired (sampleData 1) (sampleData 2)
    (sampleData 3) (sampleData 4) 0 0 3 300 4 400 (1 + 1 / 1000000)
    (1 + 1 / 1000000 + 1 / 2000000) rfl rfl
    (by norm_num [mbPaired, mkTracker, ClockTracker.feed, seq_diff, tick_diff])
    (by norm_num [mbPaired, mkTracker, MessageBuilder.feed_imu_messages,
      ClockTracker.feed, seq_diff, tick_diff, PacketType.ofInt])).1

/-- C9: a packet whose source node differs from the configured target node is
still fed to the `ClockTracker` (the builder's tracker advances exactly as a
direct `feed` call would), both latches are left unchanged, and no
`AggregatedSample` is produced. -/
theorem non_target_node_updates_clock_only (st : MessageBuilder) (now : ℚ)
    (node : String) (seq pt ts : ℤ) (d : ImuData) (h : node ≠ st.node) :
    (st.feed_imu_messages now node seq pt ts d).1 =
      { st with clock_tracker := (st.clock_tracker.feed now ts seq).1 } ∧
    ∀ m : Msg,
      (st.feed_imu_messages now node seq pt ts d).2 ≠ Except.ok (some m) := by
  unfold MessageBuilder.feed_imu_messages
  rcases hck : st.clock_tracker.feed now ts seq with ⟨ck, r⟩
  cases r with
  | error e => simp
  | ok t => simp [h]

/-- C9, witness: a packet from node `"FDB"` against the `"RQB"` builder. -/
theorem non_target_node_updates_clock_only_witness :
    (mbFresh.feed_imu_messages 0 "FDB" 1 1 100 (sampleData 1)).1 =
      { mbFresh with
          clock_tracker := (mbFresh.clock_tracker.feed 0 100 1).1 } ∧
    ∀ m : Msg,
      (mbFresh.feed_imu_messages 0 "FDB" 1 1 100 (sampleData 1)).2 ≠
        Except.ok (some m) :=
  non_target_node_updates_clock_only mbFresh 0 "FDB" 1 1 100 (sampleData 1)
    (by decide)

/-- Reading `getD` on a prefix agrees with the base list inside the prefix. -/
theorem getD_take (l : List ℕ) (n i : ℕ) (h : i < n) :
    (l.take n).getD i 0 = l.getD i 0 := by
  simp [List.getD_eq_getElem?_getD, List.getElem?_take, h]

/-- Reading `readU8` on a prefix agrees with the base list inside the prefix. -/
theorem readU8_take (l : List ℕ) (n i : ℕ) (h : i < n) :
    readU8 (l.take n) i = readU8 l i := by
  unfold readU8
  rw [getD_take l n i h]

/-- Characterization of `MessageBuilder.feed` on a long-enough payload whose
type byte is 0 (STATE): `struct.unpack` succeeds carrying the raw enum bytes,
and the call's outcome is decided by the two enum interpretations. -/
theorem feed_state_packet_char (st : MessageBuilder) (now : ℚ) (node : String)
    (d : List ℕ) (hlen : RQ_STATE_SIZE ≤ d.length) (htype : d.getD 1 0 = 0) :
    (∃ v : StateValues, unpackState (d.take RQ_STATE_SIZE) = Except.ok v ∧
      v.ignition = readU8 d 6 ∧ v.control = readU8 d 7) ∧
    st.feed now node d =
      (match IgnitionState.ofInt (readU8 d 6) with
       | none => (st, Except.error PyError.valueError)
       | some _ =>
         match ControlState.ofInt (readU8 d 7) with
         | none => (st, Except.error PyError.valueError)
         | some _ => (st, Except.ok none)) := by
  have hl16 : (d.take RQ_STATE_SIZE).length = RQ_STATE_SIZE := by
    simp only [List.length_take, RQ_STATE_SIZE] at hlen ⊢
    omega
  have hun : unpackState (d.take RQ_STATE_SIZE) =
      Except.ok
        { seq := readU8 (d.take RQ_STATE_SIZE) 0,
          ptype := readU8 (d.take RQ_STATE_SIZE) 1,
          timestamp := readU32 (d.take RQ_STATE_SIZE) 2,
          ignition := readU8 (d.take RQ_STATE_SIZE) 6,
          control := readU8 (d.take RQ_STATE_SIZE) 7,
          v0 := readI16 (d.take RQ_STATE_SIZE) 8,
          v1 := readI16 (d.take RQ_STATE_SIZE) 10,
          v2 := readI16 (d.take RQ_STATE_SIZE) 12,
          v3 := readI16 (d.take RQ_STATE_SIZE) 14 } := by
    simp [unpackState, hl16]
  have hign : readU8 (d.take RQ_STATE_SIZE) 6 = readU8 d 6 :=
    readU8_take d RQ_STATE_SIZE 6 (by norm_num [RQ_STATE_SIZE])
  have hctl : readU8 (d.take RQ_STATE_SIZE) 7 = readU8 d 7 :=
    readU8_take d RQ_STATE_SIZE 7 (by norm_num [RQ_STATE_SIZE])
  refine ⟨⟨_, hun, hign, hctl⟩, ?_⟩
  match d, hlen, htype with
  | b0 :: b1 :: t, hlen, htype =>
    have hb1 : b1 = 0 := by simpa using htype
    subst hb1
    unfold MessageBuilder.feed
    rw [hun]
    simp only [Nat.cast_zero, hign, hctl]
    rfl

/-- C4, counterexample: a STATE payload whose ignition byte is 9 (outside the
enum) makes `builder.feed` raise `ValueError` — uncaught in `main`, because
only `json.loads` sits inside the `try` — so the loop dies and the following
well-formed IMU envelope is never processed. -/
theorem unknown_enum_value_kills_loop_concrete :
    (runLoop mbFresh
        [(0, "RQB", badStatePayload), (1, "RQB", goodImuPayload)]).2 =
      Except.error PyError.valueError := by rfl

/-- C4, amended: a payload whose packet-type byte matches no `PacketType`, or
a STATE payload whose ignition or control byte is outside its enum range,
makes `feed` raise `ValueError`.  `struct.unpack` itself succeeds and carries
the raw integer, but the error propagates out of `builder.feed`, terminating
the bridge loop instead of letting it continue. -/
theorem unknown_enum_value_raises_value_error (st : MessageBuilder) (now : ℚ)
    (node : String) (d : List ℕ) :
    (2 ≤ d.length → PacketType.ofInt (readU8 d 1) = none →
      st.feed now node d = (st, Except.error PyError.valueError) ∧
      ∀ rest, runLoop st ((now, node, d) :: rest) =
        (st, Except.error PyError.valueError)) ∧
    (RQ_STATE_SIZE ≤ d.length → d.getD 1 0 = 0 →
      IgnitionState.ofInt (readU8 d 6) = none →
      (∃ v : StateValues, unpackState (d.take RQ_STATE_SIZE) = Except.ok v ∧
        v.ignition = readU8 d 6) ∧
      st.feed now node d = (st, Except.error PyError.valueError) ∧
      ∀ rest, runLoop st ((now, node, d) :: rest) =
        (st, Except.error PyError.valueError)) ∧
    (RQ_STATE_SIZE ≤ d.length → d.getD 1 0 = 0 →
      IgnitionState.ofInt (readU8 d 6) ≠ none →
      ControlState.ofInt (readU8 d 7) = none →
      st.feed now node d = (st, Except.error PyError.valueError)) := by
  refine ⟨?_, ?_, ?_⟩
  · intro h2 hno
    match d, h2 with
    | b0 :: b1 :: t, h2 =>
      have hb1 : readU8 (b0 :: b1 :: t) 1 = (b1 : ℤ) := by simp [readU8]
      rw [hb1] at hno
      have hfeed : MessageBuilder.feed st now node (b0 :: b1 :: t) =
          (st, Except.error PyError.valueError) := by
        unfold MessageBuilder.feed
        dsimp only
        rw [hno]
      refine ⟨hfeed, fun rest => ?_⟩
      unfold runLoop
      rw [hfeed]
  · intro hlen htype hign
    obtain ⟨⟨v, hun, hvi, _⟩, hfeed⟩ :=
      feed_state_packet_char st now node d hlen htype
    rw [hign] at hfeed
    exact ⟨⟨v, hun, hvi⟩, hfeed, fun rest => by unfold runLoop; rw [hfeed]⟩
  · intro hlen htype hign hctl
    obtain ⟨-, hfeed⟩ := feed_state_packet_char st now node d hlen htype
    rcases hi : IgnitionState.ofInt (readU8 d 6) with _ | i
    · exact absurd hi hign
    · rw [hi, hctl] at hfeed
      exact hfeed

/-- C4, witness: the amended theorem at the three concrete bad payloads. -/
theorem unknown_enum_value_raises_value_error_witness :
    mbFresh.feed 0 "RQB" badTypePayload =
      (mbFresh, Except.error PyError.valueError) ∧
    mbFresh.feed 0 "RQB" badStatePayload =
      (mbFresh, Except.error PyError.valueError) ∧
    runLoop mbFresh [(0, "RQB", badStatePayload), (1, "RQB", goodImuPayload)] =
      (mbFresh, Except.error PyError.valueError) ∧
    mbFresh.feed 0 "RQB" badControlPayload =
      (mbFresh, Except.error PyError.valueError) :=
  ⟨((unknown_enum_value_raises_value_error mbFresh 0 "RQB" badTypePayload).1
      (by decide) (by decide)).1,
   ((unknown_enum_value_raises_value_error mbFresh 0 "RQB" badStatePayload).2.1
      (by decide) (by decide) (by decide)).2.1,
   ((unknown_enum_value_raises_value_error mbFresh 0 "RQB" badStatePayload).2.1
      (by decide) (by decide) (by decide)).2.2 [(1, "RQB", goodImuPayload)],
   (unknown_enum_value_raises_value_error mbFresh 0 "RQB" badControlPayload).2.2
      (by decide) (by decide) (by decide) (by decide)⟩

/-- C5, counterexample: an empty payload makes `builder.feed` raise
(`seq, packet_type = data[:2]` fails to unpack) and — because `builder.feed`
runs in the `else:` clause, outside the `except ValueError` that guards only
`json.loads` — the loop terminates; the next well-formed envelope is never
processed.  The failure is not a recoverable skip. -/
theorem short_payload_kills_loop_concrete :
    (runLoop mbFresh [(0, "RQB", ([] : List ℕ)), (1, "RQB", goodImuPayload)]).2 =
      Except.error PyError.valueError := by rfl

/-- C5, amended: a payload shorter than the 2-byte header raises `ValueError`,
and a payload of known type shorter than that type's fixed size raises
`struct.error`; in every case the exception propagates out of `builder.feed`
and terminates the bridge loop, rather than being dropped and skipped. -/
theorem short_payload_decode_raises (st : MessageBuilder) (now : ℚ)
    (node : String) (d : List ℕ) :
    (d.length < 2 →
      st.feed now node d = (st, Except.error PyError.valueError) ∧
      ∀ rest, runLoop st ((now, node, d) :: rest) =
        (st, Except.error PyError.valueError)) ∧
    (2 ≤ d.length → d.length < RQ_STATE_SIZE → d.getD 1 0 = 0 →
      st.feed now node d = (st, Except.error PyError.structError) ∧
      ∀ rest, runLoop st ((now, node, d) :: rest) =
        (st, Except.error PyError.structError)) ∧
    (2 ≤ d.length → d.length < RQ_SIZE →
      (d.getD 1 0 = 1 ∨ d.getD 1 0 = 2) →
      st.feed now node d = (st, Except.error PyError.structError) ∧
      ∀ rest, runLoop st ((now, node, d) :: rest) =
        (st, Except.error PyError.structError)) := by
  refine ⟨?_, ?_, ?_⟩
  · intro hshort
    have hfeed : st.feed now node d = (st, Except.error PyError.valueError) := by
      match d, hshort with
      | [], _ => rfl
      | [b0], _ => rfl
    exact ⟨hfeed, fun rest => by unfold runLoop; rw [hfeed]⟩
  · intro h2 hlt htype
    have hne : (d.take RQ_STATE_SIZE).length ≠ RQ_STATE_SIZE := by
      rw [List.length_take]
      omega
    have hun : unpackState (d.take RQ_STATE_SIZE) =
        Except.error PyError.structError := by
      unfold unpackState
      rw [if_neg hne]
    have hfeed : st.feed now node d = (st, Except.error PyError.structError) := by
      match d, h2, htype with
      | b0 :: b1 :: t, h2, htype =>
        have hb1 : b1 = 0 := by simpa using htype
        subst hb1
        unfold MessageBuilder.feed
        dsimp only
        rw [hun]
        rfl
    exact ⟨hfeed, fun rest => by unfold runLoop; rw [hfeed]⟩
  · intro h2 hlt htype
    have hne : (d.take RQ_SIZE).length ≠ RQ_SIZE := by
      rw [List.length_take]
      omega
    have hun : unpackImu (d.take RQ_SIZE) = Except.error PyError.structError := by
      unfold unpackImu
      rw [if_neg hne]
    have hfeed : st.feed now node d = (st, Except.error PyError.structError) := by
      match d, h2, htype with
      | b0 :: b1 :: t, h2, htype =>
        rcases htype with htype | htype
        · have hb1 : b1 = 1 := by simpa using htype
          subst hb1
          unfold MessageBuilder.feed
          dsimp only
          rw [hun]
          rfl
        · have hb1 : b1 = 2 := by simpa using htype
          subst hb1
          unfold MessageBuilder.feed
          dsimp only
          rw [hun]
          rfl
    exact ⟨hfeed, fun rest => by unfold runLoop; rw [hfeed]⟩

/-- C5, witness: the amended theorem applied at an empty payload, a 3-byte
STATE payload and a 2-byte IMU set-A payload. -/
theorem short_payload_decode_raises_witness :
    mbFresh.feed 0 "RQB" [] = (mbFresh, Except.error PyError.valueError) ∧
    mbFresh.feed 0 "RQB" [0, 0, 0] =
      (mbFresh, Except.error PyError.structError) ∧
    mbFresh.feed 0 "RQB" [0, 1] = (mbFresh, Except.error PyError.structError) :=
  ⟨((short_payload_decode_raises mbFresh 0 "RQB" []).1 (by decide)).1,
   ((short_payload_decode_raises mbFresh 0 "RQB" [0, 0, 0]).2.1 (by decide)
      (by decide) (by decide)).1,
   ((short_payload_decode_raises mbFresh 0 "RQB" [0, 1]).2.2 (by decide)
      (by decide) (Or.inl (by decide))).1⟩
